import Mathlib

/-!
Shallow embedding of `src/texcaller.c` (the Texcaller library).

File contents are modelled as `String` (one `Char` per byte).  Each
syscall-level outcome that the C code branches on is an explicit input:
an `Option String` field holds `some errnoText` when that syscall fails
with the given `strerror` text, and `none` when it succeeds.  Memory
allocation (`sprintf_alloc`, `malloc` for strings) is modelled as always
succeeding; out-of-memory degradation is outside this model.
-/

set_option maxHeartbeats 1000000

namespace Texcaller

/-- Environment of one `read_file` call: the outcome of every syscall it
performs, in the order the C code performs them. -/
structure ReadFileEnv where
  openFail : Option String
  seekEndFail : Option String
  tellFail : Option String
  tellSize : Nat
  seekSetFail : Option String
  allocFail : Option String
  delivered : String
  freadErr : Option String
  closeFail : Option String

/-- Embedding of `read_file` (texcaller.c lines 190-252).  Returns
`(dest, dest_size, error)`: on any failure the `error_cleanup` label sets
`dest` to `none` and `dest_size` to `0`. -/
def read_file (env : ReadFileEnv) (path : String) : Option String × Nat × Option String :=
  match env.openFail with
  | some e => (none, 0, some ("Unable to open file \"" ++ path ++ "\" for reading: " ++ e ++ "."))
  | none =>
    match env.seekEndFail with
    | some e => (none, 0, some ("Unable to seek to end of file \"" ++ path ++ "\": " ++ e ++ "."))
    | none =>
      match env.tellFail with
      | some e => (none, 0, some ("Unable to obtain size of file \"" ++ path ++ "\": " ++ e ++ "."))
      | none =>
        match env.seekSetFail with
        | some e => (none, 0, some ("Unable to seek back to start of file \"" ++ path ++ "\": " ++ e ++ "."))
        | none =>
          match env.allocFail with
          | some e => (none, 0, some ("Unable to allocate buffer for reading file \"" ++ path ++ "\": " ++ e ++ "."))
          | none =>
            match env.freadErr with
            | some e => (none, 0, some ("Unable to read " ++ toString env.tellSize ++ " bytes from file \"" ++ path ++ "\": " ++ e ++ "."))
            | none =>
              if env.delivered.length ≠ env.tellSize then
                (none, 0, some ("Unable to read " ++ toString env.tellSize ++ " bytes from file \"" ++ path ++ "\": Got only " ++ toString env.delivered.length ++ " bytes."))
              else
                match env.closeFail with
                | some e => (none, 0, some ("Unable to close file \"" ++ path ++ "\" after reading: " ++ e ++ "."))
                | none => (some env.delivered, env.tellSize, none)

/-- Environment of one `write_file` call. -/
structure WriteFileEnv where
  openFail : Option String
  written : Nat
  fwriteErr : Option String
  closeFail : Option String

/-- Embedding of `write_file` (texcaller.c lines 276-310).  Returns
`(return code, error)`. -/
def write_file (env : WriteFileEnv) (path : String) (src : String) : Int × Option String :=
  match env.openFail with
  | some e => (-1, some ("Unable to open file \"" ++ path ++ "\" for writing: " ++ e ++ "."))
  | none =>
    match env.fwriteErr with
    | some e => (-1, some ("Unable to write " ++ toString src.length ++ " bytes to file \"" ++ path ++ "\": " ++ e ++ "."))
    | none =>
      if env.written ≠ src.length then
        (-1, some ("Unable to write " ++ toString src.length ++ " bytes to file \"" ++ path ++ "\": Only " ++ toString env.written ++ " bytes were written."))
      else
        match env.closeFail with
        | some e => (-1, some ("Unable to close file \"" ++ path ++ "\" after writing: " ++ e ++ "."))
        | none => (0, none)

mutual
/-- One entry of a directory listing as `remove_directory_recursively`
sees it: the two traversal pseudo-entries, a plain file together with the
outcome of `unlink` on it, or a subdirectory with its own tree. -/
inductive DirEntry where
  | dot : DirEntry
  | dotdot : DirEntry
  | file : String → Option String → DirEntry
  | subdir : String → DirTree → DirEntry

/-- A directory as `remove_directory_recursively` observes it:
either `opendir` fails (with the given errno text, plus the outcome of the
final `rmdir`), or it is readable with a list of entries, the outcome of
`closedir`, and the outcome of the final `rmdir`. -/
inductive DirTree where
  | unreadable : String → Option String → DirTree
  | readable : List DirEntry → Option String → Option String → DirTree
end

/-- Outcome of the `rmdir` syscall recorded in a `DirTree` node. -/
def DirTree.rmdirOutcome : DirTree → Option String
  | .unreadable _ r => r
  | .readable _ _ r => r

/-- Final step of `remove_directory_recursively` (texcaller.c lines
154-163): `recorded` is the first error recorded so far; on `rmdir`
success everything is discarded, on failure the recorded error (or, if
none, the `rmdir` error) is surfaced. -/
def rmFinish (dirname : String) (recorded : Option String) (rmdirRes : Option String) : Int × Option String :=
  match rmdirRes with
  | none => (0, none)
  | some e =>
    (-1, some (match recorded with
               | some m => m
               | none => "Unable to remove directory \"" ++ dirname ++ "\": " ++ e ++ "."))

mutual
/-- Embedding of `remove_directory_recursively` (texcaller.c lines
114-164).  Returns `(return code, error out-parameter)`. -/
def remove_directory_recursively (dirname : String) : DirTree → Int × Option String
  | DirTree.unreadable openErrno rmdirRes =>
    rmFinish dirname
      (some ("Unable to read directory entries of \"" ++ dirname ++ "\": " ++ openErrno ++ "."))
      rmdirRes
  | DirTree.readable entries closeRes rmdirRes =>
    let e1 := rd_loop_first_error dirname entries
    let e2 := match e1 with
              | some m => some m
              | none => closeRes.map
                  (fun er => "Unable to close directory \"" ++ dirname ++ "\": " ++ er ++ ".")
    rmFinish dirname e2 rmdirRes

/-- The `readdir` loop of `remove_directory_recursively` (texcaller.c
lines 125-148): processes every entry, keeping only the first error. -/
def rd_loop_first_error (dirname : String) : List DirEntry → Option String
  | [] => none
  | DirEntry.dot :: rest => rd_loop_first_error dirname rest
  | DirEntry.dotdot :: rest => rd_loop_first_error dirname rest
  | DirEntry.file nm ures :: rest =>
    match ures with
    | some er => some ("Unable to remove file \"" ++ dirname ++ "/" ++ nm ++ "\": " ++ er ++ ".")
    | none => rd_loop_first_error dirname rest
  | DirEntry.subdir nm t :: rest =>
    match remove_directory_recursively (dirname ++ "/" ++ nm) t with
    | (r, e) =>
      if r = 0 then rd_loop_first_error dirname rest
      else
        match e with
        | some m => some m
        | none => rd_loop_first_error dirname rest
end

/-- Spec-side description of the error recorded for a single directory
entry (it calls the removal routine as a black box for subdirectories). -/
def entry_error (dirname : String) : DirEntry → Option String
  | DirEntry.dot => none
  | DirEntry.dotdot => none
  | DirEntry.file nm ures =>
    ures.map (fun er => "Unable to remove file \"" ++ dirname ++ "/" ++ nm ++ "\": " ++ er ++ ".")
  | DirEntry.subdir nm t =>
    let r := remove_directory_recursively (dirname ++ "/" ++ nm) t
    if r.1 = 0 then none else r.2

/-- Spec-side list of every error recorded while traversing one
directory, in the order the traversal notices them (listing failure,
per-entry failures, closing failure). -/
def recorded_errors (dirname : String) : DirTree → List String
  | DirTree.unreadable openErrno _ =>
    ["Unable to read directory entries of \"" ++ dirname ++ "\": " ++ openErrno ++ "."]
  | DirTree.readable entries closeRes _ =>
    entries.filterMap (entry_error dirname) ++
      (match closeRes with
       | some er => ["Unable to close directory \"" ++ dirname ++ "\": " ++ er ++ "."]
       | none => [])

/-- Embedding of `escape_latex_char` (texcaller.c lines 34-56): the fixed
substitution table, `none` when the character passes through unchanged.
Brace, double-quote, caret and backtick characters are written via
`Char.ofNat` of their ASCII codes (123/125, 34, 94, 96). -/
def escape_latex_char (c : Char) : Option String :=
  if c = '$' then some "\\$"
  else if c = '%' then some "\\%"
  else if c = '&' then some "\\&"
  else if c = '#' then some "\\#"
  else if c = '_' then some "\\_"
  else if c = Char.ofNat 123 then some "\\\x7b"
  else if c = Char.ofNat 125 then some "\\\x7d"
  else if c = '[' then some "\x7b[\x7d"
  else if c = ']' then some "\x7b]\x7d"
  else if c = Char.ofNat 34 then some "\x7b\x27\x27\x7d"
  else if c = '\\' then some "\\textbackslash\x7b\x7d"
  else if c = '~' then some "\\textasciitilde\x7b\x7d"
  else if c = '<' then some "\\textless\x7b\x7d"
  else if c = '>' then some "\\textgreater\x7b\x7d"
  else if c = Char.ofNat 94 then some "\\textasciicircum\x7b\x7d"
  else if c = Char.ofNat 96 then some "\x7b\x7d\x60"
  else if c = '\n' then some "\\\\"
  else none

/-- First pass of `texcaller_escape_latex` (texcaller.c lines 515-523):
the pre-computed length of the escaped result. -/
def escaped_length (l : List Char) : Nat :=
  l.foldl
    (fun acc c =>
      match escape_latex_char c with
      | none => acc + 1
      | some e => acc + e.length)
    0

/-- Second pass of `texcaller_escape_latex` (texcaller.c lines 530-540):
writes each character or its replacement, left to right. -/
def escape_write : List Char → String → String
  | [], acc => acc
  | c :: rest, acc =>
    escape_write rest
      (acc ++ match escape_latex_char c with
              | none => String.singleton c
              | some e => e)

/-- Embedding of `texcaller_escape_latex` (texcaller.c lines 508-543). -/
def texcaller_escape_latex (s : String) : String :=
  escape_write s.data ""

/-- Spec-side substitution table, written from the claim wording: a total
function giving each character its replacement, with every character not
in the table mapped to itself. -/
def spec_escape_char (c : Char) : String :=
  if c = '$' then "\\$"
  else if c = '%' then "\\%"
  else if c = '&' then "\\&"
  else if c = '#' then "\\#"
  else if c = '_' then "\\_"
  else if c = Char.ofNat 123 then "\\\x7b"
  else if c = Char.ofNat 125 then "\\\x7d"
  else if c = '[' then "\x7b[\x7d"
  else if c = ']' then "\x7b]\x7d"
  else if c = Char.ofNat 34 then "\x7b\x27\x27\x7d"
  else if c = '\\' then "\\textbackslash\x7b\x7d"
  else if c = '~' then "\\textasciitilde\x7b\x7d"
  else if c = '<' then "\\textless\x7b\x7d"
  else if c = '>' then "\\textgreater\x7b\x7d"
  else if c = Char.ofNat 94 then "\\textasciicircum\x7b\x7d"
  else if c = Char.ofNat 96 then "\x7b\x7d\x60"
  else if c = '\n' then "\\\\"
  else String.singleton c

/-- Outcome of launching one engine run and waiting for it
(texcaller.c lines 396-445): `fork` failure, `waitpid` failure, death by
signal, or a normal exit with the given status. -/
inductive RunOutcome where
  | forkFail : String → RunOutcome
  | waitFail : String → RunOutcome
  | signaled : Int → RunOutcome
  | exited : Int → RunOutcome

/-- Environment of one `texcaller_convert` call: every external outcome
the code branches on.  `runOut n`, `auxEnv n` describe the n-th loop
iteration (1-based). -/
structure ConvEnv where
  tmpdir : Option String
  mkdtempFail : Option String
  dirSuffix : String
  writeEnv : WriteFileEnv
  runOut : Nat → RunOutcome
  auxEnv : Nat → ReadFileEnv
  destEnv : ReadFileEnv
  logEnv : ReadFileEnv
  cleanup : DirTree

/-- Result of `texcaller_convert`: the three out-parameters, plus two
ghost observations used to state side-effect claims: whether `mkdtemp`
was reached, and whether a workspace directory was actually created. -/
structure ConvResult where
  dest : Option String
  dest_size : Nat
  info : Option String
  workspaceCreated : Bool
  triedMkdtemp : Bool
deriving DecidableEq

/-- Engine selection (texcaller.c lines 336-348): the command for a
supported format pair, `none` otherwise. -/
def engineCmd (src_format dest_format : String) : Option String :=
  if src_format = "TeX" ∧ dest_format = "DVI" then some "tex"
  else if src_format = "TeX" ∧ dest_format = "PDF" then some "pdftex"
  else if src_format = "LaTeX" ∧ dest_format = "DVI" then some "latex"
  else if src_format = "LaTeX" ∧ dest_format = "PDF" then some "pdflatex"
  else none

/-- Base temporary directory resolution (texcaller.c lines 355-358):
`TMPDIR` unless unset or empty, else `/tmp`. -/
def tmpdirResolve (t : Option String) : String :=
  match t with
  | none => "/tmp"
  | some s => if s = "" then "/tmp" else s

/-- Destination file name (texcaller.c lines 381-385). -/
def destFilename (dir dest_format : String) : String :=
  if dest_format = "DVI" then dir ++ "/texput.dvi" else dir ++ "/texput.pdf"

/-- Model of `memcmp(a, b, n) == 0` on the first `n` bytes of two buffers
(a `NULL` buffer of size 0 compares equal, as the C call with size 0
does). -/
def memcmpZero (a b : Option String) (n : Nat) : Bool :=
  (a.getD "").toList.take n == (b.getD "").toList.take n

/-- The success diagnostic of `texcaller_convert` (texcaller.c lines
461-464). -/
def genMsg (dest_format : String) (dsz : Nat) (src_format : String)
    (ssz : Nat) (runs : Nat) : String :=
  "Generated " ++ dest_format ++ " (" ++ toString dsz ++ " bytes) from "
    ++ src_format ++ " (" ++ toString ssz ++ " bytes) after " ++ toString runs ++ " runs."

/-- The run loop of `texcaller_convert` (texcaller.c lines 395-471),
with the remaining iteration count as fuel (`fuel + run = max_runs + 1`
at entry).  Carries the previous round aux buffer and its size; returns
the pre-cleanup `(dest, dest_size, info)` triple. -/
def runLoop (env : ConvEnv) (cmd dir src_format dest_format : String)
    (src_size : Nat) (max_runs : Int) :
    Nat → Option String → Nat → Nat → Option String × Nat × Option String
  | 0, _, _, _ =>
    (none, 0, some ("Output didn\x27t stabilize after " ++ toString max_runs ++ " runs."))
  | fuel + 1, aux_old, aux_old_size, run =>
    match env.runOut run with
    | RunOutcome.forkFail e =>
      (none, 0, some ("Unable to fork child process: " ++ e ++ "."))
    | RunOutcome.waitFail e =>
      (none, 0, some ("Unable to wait for child process: " ++ e ++ "."))
    | RunOutcome.signaled s =>
      (none, 0, some ("Command \"" ++ cmd ++ "\" was terminated by signal " ++ toString s ++ "."))
    | RunOutcome.exited st =>
      if st ≠ 0 then
        (none, 0, some ("Command \"" ++ cmd ++ "\" terminated with exit status " ++ toString st ++ "."))
      else
        let r := read_file (env.auxEnv run) (dir ++ "/texput.aux")
        let aux := r.1
        let aux_size := r.2.1
        if (aux_size == aux_old_size) && memcmpZero aux aux_old aux_size then
          let rd := read_file env.destEnv (destFilename dir dest_format)
          match rd.1 with
          | none => (none, 0, rd.2.2)
          | some b => (some b, rd.2.1, some (genMsg dest_format rd.2.1 src_format src_size run))
        else
          runLoop env cmd dir src_format dest_format src_size max_runs fuel aux aux_size (run + 1)

/-- The converged branch of one loop iteration (texcaller.c lines
455-466): the destination file is read, its absence is fatal with the
read error as diagnostic, and its presence yields the success diagnostic
for the given run number. -/
def convergedResult (env : ConvEnv) (dir src_format dest_format : String)
    (src_size run : Nat) : Option String × Nat × Option String :=
  match (read_file env.destEnv (destFilename dir dest_format)).1 with
  | none => (none, 0, (read_file env.destEnv (destFilename dir dest_format)).2.2)
  | some b =>
    (some b, (read_file env.destEnv (destFilename dir dest_format)).2.1,
     some (genMsg dest_format (read_file env.destEnv (destFilename dir dest_format)).2.1
             src_format src_size run))

/-- The workspace directory name a successful `mkdtemp` produces
(the template with its `XXXXXX` tail replaced by the unique suffix). -/
def convDirName (env : ConvEnv) : String :=
  tmpdirResolve env.tmpdir ++ "/texcaller-temp-" ++ env.dirSuffix

/-- Everything `texcaller_convert` does before the `cleanup` label
(texcaller.c lines 332-471).  Returns the ghost mkdtemp-reached flag, the
created directory (`none` when `dir` stayed `NULL`), and the pre-cleanup
`(dest, dest_size, info)` triple. -/
def texcaller_preconvert (env : ConvEnv) (src : String)
    (src_format dest_format : String) (max_runs : Int) :
    Bool × Option String × (Option String × Nat × Option String) :=
  match engineCmd src_format dest_format with
  | none =>
    (false, none,
     (none, 0, some ("Unable to convert from \"" ++ src_format ++ "\" to \"" ++ dest_format ++ "\".")))
  | some cmd =>
    if max_runs < 2 then
      (false, none,
       (none, 0, some ("Argument max_runs is " ++ toString max_runs ++ ", but must be >= 2.")))
    else
      match env.mkdtempFail with
      | some e =>
        (true, none,
         (none, 0, some ("Unable to create temporary directory from template \""
                         ++ (tmpdirResolve env.tmpdir ++ "/texcaller-temp-XXXXXX")
                         ++ "\": " ++ e ++ ".")))
      | none =>
        if (write_file env.writeEnv (convDirName env ++ "/texput.tex") src).1 ≠ 0 then
          (true, some (convDirName env),
           (none, 0, (write_file env.writeEnv (convDirName env ++ "/texput.tex") src).2))
        else
          (true, some (convDirName env),
           runLoop env cmd (convDirName env) src_format dest_format src.length max_runs
             max_runs.toNat none 0 1)

/-- The log-append step of the `cleanup` label (texcaller.c lines
474-489): a readable log file is appended to an existing diagnostic
after a blank line, or becomes the diagnostic when none exists. -/
def appendLog (lg : Option String) (info : Option String) : Option String :=
  match lg with
  | none => info
  | some l =>
    match info with
    | none => some l
    | some i => some (i ++ "\n\n" ++ l)

/-- The `cleanup` label of `texcaller_convert` (texcaller.c lines
473-504): best-effort log append, then recursive workspace removal whose
failure overrides everything previously decided. -/
def cleanupPhase (env : ConvEnv) (tried : Bool) (dir : Option String)
    (pre : Option String × Nat × Option String) : ConvResult :=
  match dir with
  | none =>
    { dest := pre.1, dest_size := pre.2.1, info := pre.2.2
      workspaceCreated := false, triedMkdtemp := tried }
  | some d =>
    if (remove_directory_recursively d env.cleanup).1 ≠ 0 then
      { dest := none, dest_size := 0, info := (remove_directory_recursively d env.cleanup).2
        workspaceCreated := true, triedMkdtemp := tried }
    else
      { dest := pre.1, dest_size := pre.2.1
        info := appendLog (read_file env.logEnv (d ++ "/texput.log")).1 pre.2.2
        workspaceCreated := true, triedMkdtemp := tried }

/-- Embedding of `texcaller_convert` (texcaller.c lines 316-504). -/
def texcaller_convert (env : ConvEnv) (src : String)
    (src_format dest_format : String) (max_runs : Int) : ConvResult :=
  match texcaller_preconvert env src src_format dest_format max_runs with
  | (tried, dir, pre) => cleanupPhase env tried dir pre

/-- The aux buffer read after the n-th run (`none` for the initial,
pre-loop state). -/
def auxChain (env : ConvEnv) (dir : String) : Nat → Option String
  | 0 => none
  | n + 1 => (read_file (env.auxEnv (n + 1)) (dir ++ "/texput.aux")).1

/-- Concrete directory tree for the C2 witness: one failing `unlink`,
then a failing final `rmdir`. -/
def dirTreeW : DirTree :=
  DirTree.readable
    [DirEntry.dot, DirEntry.file "texput.tex" (some "EPERM"), DirEntry.file "texput.log" none]
    none (some "ENOTEMPTY")

/-- Spec-side escaped form of a character list: the concatenation of
each character's replacement under the substitution table. -/
def spec_escape : List Char → String
  | [] => ""
  | c :: rest => spec_escape_char c ++ spec_escape rest

/-- Concrete read environment for the C7 witness: `fopen` fails. -/
def rfFailW : ReadFileEnv :=
  { openFail := some "No such file or directory", seekEndFail := none, tellFail := none,
    tellSize := 0, seekSetFail := none, allocFail := none, delivered := "",
    freadErr := none, closeFail := none }

/-- Concrete read environment describing a successfully read file with
the given content. -/
def rdOk (content : String) : ReadFileEnv :=
  { openFail := none, seekEndFail := none, tellFail := none, tellSize := content.length,
    seekSetFail := none, allocFail := none, delivered := content,
    freadErr := none, closeFail := none }

/-- Concrete conversion environment used by the witnesses: everything
succeeds, the aux file is absent on every run, the destination file
holds 8 bytes, and workspace removal succeeds. -/
def envW : ConvEnv :=
  { tmpdir := none, mkdtempFail := none, dirSuffix := "Ab12Cd",
    writeEnv := { openFail := none, written := 5, fwriteErr := none, closeFail := none },
    runOut := fun _ => RunOutcome.exited 0,
    auxEnv := fun _ => rfFailW, destEnv := rdOk "PDFBYTES", logEnv := rfFailW,
    cleanup := DirTree.readable [DirEntry.dot, DirEntry.dotdot, DirEntry.file "texput.tex" none] none none }

/-- Conversion environment whose workspace removal fails, for the C1
witness. -/
def envRmFail : ConvEnv :=
  { envW with
    cleanup := DirTree.readable [DirEntry.dot, DirEntry.dotdot] none (some "EACCES") }

/-- Conversion environment whose aux file changes on every run, for the
C8 witness. -/
def envExh : ConvEnv :=
  { envW with auxEnv := fun n => rdOk (toString n) }

/-- Every call to `read_file` either fails with no data, a zero size and
an error message, or succeeds delivering the full buffer with its exact
size. -/
theorem read_file_shape (env : ReadFileEnv) (path : String) :
    ((read_file env path).1 = none ∧ (read_file env path).2.1 = 0
       ∧ ((read_file env path).2.2).isSome = true)
    ∨ (read_file env path = (some env.delivered, env.tellSize, none)
       ∧ env.delivered.length = env.tellSize) := by
  unfold read_file
  repeat' split
  all_goals first
    | (left; exact ⟨rfl, rfl, rfl⟩)
    | (right; refine ⟨rfl, ?_⟩; omega)

/-- The size out-parameter of `read_file` is always the length of the
delivered buffer (`0` when the buffer is absent). -/
theorem read_file_size (env : ReadFileEnv) (path : String) :
    (read_file env path).2.1 = ((read_file env path).1.getD "").length := by
  rcases read_file_shape env path with ⟨h1, h2, _⟩ | ⟨h, hlen⟩
  · rw [h1, h2]; rfl
  · rw [h]; simpa using hlen.symm

/-- When `read_file` returns no buffer it returns an error message. -/
theorem read_file_none_isSome (env : ReadFileEnv) (path : String)
    (h : (read_file env path).1 = none) : ((read_file env path).2.2).isSome = true := by
  rcases read_file_shape env path with ⟨_, _, h3⟩ | ⟨he, _⟩
  · exact h3
  · rw [he] at h; cases h

/-- The stability test of the run loop (`aux_size == aux_old_size`
together with `memcmp == 0`) holds exactly when the two buffers agree
byte for byte, an absent buffer counting as empty. -/
theorem stable_iff (a b : Option String) :
    ((((a.getD "").length == (b.getD "").length))
      && memcmpZero a b (a.getD "").length) = true ↔ a.getD "" = b.getD "" := by
  have hta : (a.getD "").data.length = (a.getD "").length := rfl
  have htb : (b.getD "").data.length = (b.getD "").length := rfl
  constructor
  · intro h
    rw [Bool.and_eq_true] at h
    obtain ⟨h1, h2⟩ := h
    have hlen : (a.getD "").length = (b.getD "").length := by simpa using h1
    have h2' : List.take (a.getD "").length (a.getD "").data
        = List.take (a.getD "").length (b.getD "").data := by
      simpa [memcmpZero] using h2
    rw [← hta, List.take_length, hta, hlen, ← htb, List.take_length] at h2'
    exact String.ext h2'
  · intro h
    rw [Bool.and_eq_true]
    exact ⟨by simp [h], by simp [memcmpZero, h]⟩

/-- On `rmdir` failure `remove_directory_recursively` always hands back
an error message. -/
theorem rmFinish_fail (d : String) (rec0 rm : Option String)
    (h : (rmFinish d rec0 rm).1 ≠ 0) : ∃ m, (rmFinish d rec0 rm).2 = some m := by
  cases rm with
  | none => simp [rmFinish] at h
  | some e => cases rec0 <;> simp [rmFinish]

/-- The return code of `rmFinish` is zero exactly when `rmdir`
succeeded. -/
theorem rmFinish_zero_iff (d : String) (rec0 rm : Option String) :
    (rmFinish d rec0 rm).1 = 0 ↔ rm = none := by
  cases rm <;> simp [rmFinish]

/-- Any failing return of `remove_directory_recursively` carries an
error message. -/
theorem rm_error_isSome (d : String) (t : DirTree)
    (h : (remove_directory_recursively d t).1 ≠ 0) :
    ∃ m, (remove_directory_recursively d t).2 = some m := by
  cases t with
  | unreadable op rm =>
    simp only [remove_directory_recursively] at h ⊢
    exact rmFinish_fail _ _ _ h
  | readable entries cl rm =>
    simp only [remove_directory_recursively] at h ⊢
    exact rmFinish_fail _ _ _ h

/-- The first error kept by the `readdir` loop is the head of the list
of all errors the traversal records. -/
theorem rd_loop_eq (d : String) (l : List DirEntry) :
    rd_loop_first_error d l = (l.filterMap (entry_error d)).head? := by
  induction l with
  | nil => rfl
  | cons e rest ih =>
    cases e with
    | dot => simpa [rd_loop_first_error, entry_error] using ih
    | dotdot => simpa [rd_loop_first_error, entry_error] using ih
    | file nm u => cases u <;> simp [rd_loop_first_error, entry_error, ih]
    | subdir nm t =>
      simp only [rd_loop_first_error, entry_error, List.filterMap_cons]
      rcases hrm : remove_directory_recursively (d ++ "/" ++ nm) t with ⟨r, e⟩
      by_cases hr : r = 0
      · simp [hrm, hr, ih]
      · cases e with
        | none => simp [hrm, hr, ih]
        | some m => simp [hrm, hr]

/-- When the current aux buffer agrees byte-for-byte with the previous
round (absent counting as empty), the loop iteration converges: it reads
the destination file and stops. -/
theorem runLoop_step_conv (env : ConvEnv) (cmd dir sf df : String) (ssz : Nat) (mr : Int)
    (fuel : Nat) (aux_old : Option String) (asz run : Nat)
    (hsz : asz = (aux_old.getD "").length)
    (hout : env.runOut run = RunOutcome.exited 0)
    (heq : (read_file (env.auxEnv run) (dir ++ "/texput.aux")).1.getD "" = aux_old.getD "") :
    runLoop env cmd dir sf df ssz mr (fuel + 1) aux_old asz run
      = convergedResult env dir sf df ssz run := by
  have hc : (((read_file (env.auxEnv run) (dir ++ "/texput.aux")).2.1 == asz)
      && memcmpZero (read_file (env.auxEnv run) (dir ++ "/texput.aux")).1 aux_old
           (read_file (env.auxEnv run) (dir ++ "/texput.aux")).2.1) = true := by
    rw [read_file_size, hsz]
    exact (stable_iff _ _).mpr heq
  simp only [runLoop, hout]
  rw [if_neg (by decide : ¬((0 : Int) ≠ 0)), if_pos hc]
  rfl

/-- When the current aux buffer differs from the previous round, the
loop iteration retains it as the new baseline and continues with the
next run. -/
theorem runLoop_step_next (env : ConvEnv) (cmd dir sf df : String) (ssz : Nat) (mr : Int)
    (fuel : Nat) (aux_old : Option String) (asz run : Nat)
    (hsz : asz = (aux_old.getD "").length)
    (hout : env.runOut run = RunOutcome.exited 0)
    (hne : (read_file (env.auxEnv run) (dir ++ "/texput.aux")).1.getD "" ≠ aux_old.getD "") :
    runLoop env cmd dir sf df ssz mr (fuel + 1) aux_old asz run
      = runLoop env cmd dir sf df ssz mr fuel
          (read_file (env.auxEnv run) (dir ++ "/texput.aux")).1
          (read_file (env.auxEnv run) (dir ++ "/texput.aux")).2.1 (run + 1) := by
  have hc : ¬ ((((read_file (env.auxEnv run) (dir ++ "/texput.aux")).2.1 == asz)
      && memcmpZero (read_file (env.auxEnv run) (dir ++ "/texput.aux")).1 aux_old
           (read_file (env.auxEnv run) (dir ++ "/texput.aux")).2.1) = true) := by
    rw [read_file_size, hsz]
    exact fun hcond => hne ((stable_iff _ _).mp hcond)
  simp only [runLoop, hout]
  rw [if_neg (by decide : ¬((0 : Int) ≠ 0)), if_neg hc]

/-- C2: for every invocation of `remove_directory_recursively`, a
successful final `rmdir` yields return value 0 with a null error,
discarding every error recorded during traversal; a failed final `rmdir`
yields -1 with the earliest recorded traversal error, or the `rmdir`
failure itself when none was recorded. -/
theorem remove_directory_policy (d : String) (t : DirTree) :
    (t.rmdirOutcome = none → remove_directory_recursively d t = (0, none))
    ∧ (∀ e, t.rmdirOutcome = some e →
        remove_directory_recursively d t =
          (-1, some ((recorded_errors d t).head?.getD
             ("Unable to remove directory \"" ++ d ++ "\": " ++ e ++ ".")))) := by
  cases t with
  | unreadable op rm =>
    constructor
    · intro h
      simp only [DirTree.rmdirOutcome] at h
      subst h
      simp [remove_directory_recursively, rmFinish]
    · intro e h
      simp only [DirTree.rmdirOutcome] at h
      subst h
      simp [remove_directory_recursively, rmFinish, recorded_errors]
  | readable entries cl rm =>
    constructor
    · intro h
      simp only [DirTree.rmdirOutcome] at h
      subst h
      simp [remove_directory_recursively, rmFinish]
    · intro e h
      simp only [DirTree.rmdirOutcome] at h
      subst h
      simp only [remove_directory_recursively, recorded_errors]
      rw [rd_loop_eq]
      cases hfm : entries.filterMap (entry_error d) with
      | nil =>
        cases cl with
        | none => simp [rmFinish, hfm]
        | some er => simp [rmFinish, hfm]
      | cons m ms => simp [rmFinish, hfm]

/-- Witness for C2 at a concrete tree: the earliest recorded error (the
failing `unlink`) is surfaced when the final `rmdir` fails. -/
theorem remove_directory_policy_witness :
    dirTreeW.rmdirOutcome = some "ENOTEMPTY"
    ∧ remove_directory_recursively "/tmp/w" dirTreeW =
        (-1, some ((recorded_errors "/tmp/w" dirTreeW).head?.getD
           ("Unable to remove directory \"/tmp/w\": ENOTEMPTY."))) :=
  ⟨rfl, (remove_directory_policy "/tmp/w" dirTreeW).2 "ENOTEMPTY" rfl⟩

/-- One character of the write pass produces exactly the table entry. -/
theorem escape_char_eq (c : Char) :
    (match escape_latex_char c with
     | none => String.singleton c
     | some e => e) = spec_escape_char c := by
  unfold escape_latex_char spec_escape_char
  by_cases h1 : c = '$'
  · rw [if_pos h1, if_pos h1]
  rw [if_neg h1, if_neg h1]
  by_cases h2 : c = '%'
  · rw [if_pos h2, if_pos h2]
  rw [if_neg h2, if_neg h2]
  by_cases h3 : c = '&'
  · rw [if_pos h3, if_pos h3]
  rw [if_neg h3, if_neg h3]
  by_cases h4 : c = '#'
  · rw [if_pos h4, if_pos h4]
  rw [if_neg h4, if_neg h4]
  by_cases h5 : c = '_'
  · rw [if_pos h5, if_pos h5]
  rw [if_neg h5, if_neg h5]
  by_cases h6 : c = Char.ofNat 123
  · rw [if_pos h6, if_pos h6]
  rw [if_neg h6, if_neg h6]
  by_cases h7 : c = Char.ofNat 125
  · rw [if_pos h7, if_pos h7]
  rw [if_neg h7, if_neg h7]
  by_cases h8 : c = '['
  · rw [if_pos h8, if_pos h8]
  rw [if_neg h8, if_neg h8]
  by_cases h9 : c = ']'
  · rw [if_pos h9, if_pos h9]
  rw [if_neg h9, if_neg h9]
  by_cases h10 : c = Char.ofNat 34
  · rw [if_pos h10, if_pos h10]
  rw [if_neg h10, if_neg h10]
  by_cases h11 : c = '\\'
  · rw [if_pos h11, if_pos h11]
  rw [if_neg h11, if_neg h11]
  by_cases h12 : c = '~'
  · rw [if_pos h12, if_pos h12]
  rw [if_neg h12, if_neg h12]
  by_cases h13 : c = '<'
  · rw [if_pos h13, if_pos h13]
  rw [if_neg h13, if_neg h13]
  by_cases h14 : c = '>'
  · rw [if_pos h14, if_pos h14]
  rw [if_neg h14, if_neg h14]
  by_cases h15 : c = Char.ofNat 94
  · rw [if_pos h15, if_pos h15]
  rw [if_neg h15, if_neg h15]
  by_cases h16 : c = Char.ofNat 96
  · rw [if_pos h16, if_pos h16]
  rw [if_neg h16, if_neg h16]
  by_cases h17 : c = '\n'
  · rw [if_pos h17, if_pos h17]
  rw [if_neg h17, if_neg h17]

/-- The write pass appends the spec-side escaped form to its
accumulator. -/
theorem escape_write_eq (l : List Char) (acc : String) :
    escape_write l acc = acc ++ spec_escape l := by
  induction l generalizing acc with
  | nil => simp [escape_write, spec_escape]
  | cons c rest ih =>
    simp only [escape_write, spec_escape]
    rw [ih, String.append_assoc, escape_char_eq]

/-- C6: `texcaller_escape_latex` substitutes every character according
to the fixed table (passing unlisted characters through), and on
"100% & $5_free" yields the expected escaped string. -/
theorem texcaller_escape_latex_table :
    (∀ s : String, texcaller_escape_latex s = spec_escape s.data)
    ∧ texcaller_escape_latex "100% & $5_free" = "100\\% \\& \\$5\\_free" := by
  constructor
  · intro s
    rw [texcaller_escape_latex, escape_write_eq]
    simp
  · decide

/-- C7: every failing `read_file` call hands back no data, a zero size
and a message naming the failed operation and quoting the path; every
successful call hands back the full buffer and its exact size (so a
short read is never silently truncated). -/
theorem read_file_failure_contract (env : ReadFileEnv) (path : String) :
    (∀ m, (read_file env path).2.2 = some m →
       (read_file env path).1 = none ∧ (read_file env path).2.1 = 0 ∧
       ∃ pre post, m = pre ++ path ++ post ∧
         (pre = "Unable to open file \"" ∨
          pre = "Unable to seek to end of file \"" ∨
          pre = "Unable to obtain size of file \"" ∨
          pre = "Unable to seek back to start of file \"" ∨
          pre = "Unable to allocate buffer for reading file \"" ∨
          (∃ n : Nat, pre = "Unable to read " ++ toString n ++ " bytes from file \"") ∨
          pre = "Unable to close file \""))
    ∧ ((read_file env path).2.2 = none →
       read_file env path = (some env.delivered, env.tellSize, none)
       ∧ env.delivered.length = env.tellSize) := by
  constructor
  · unfold read_file
    repeat' split
    · rename_i e heq
      intro m hm
      injection hm with h
      subst h
      exact ⟨rfl, rfl, "Unable to open file \"", "\" for reading: " ++ e ++ ".",
        by simp [String.append_assoc], Or.inl rfl⟩
    · rename_i e heq
      intro m hm
      injection hm with h
      subst h
      exact ⟨rfl, rfl, "Unable to seek to end of file \"", "\": " ++ e ++ ".",
        by simp [String.append_assoc], Or.inr (Or.inl rfl)⟩
    · rename_i e heq
      intro m hm
      injection hm with h
      subst h
      exact ⟨rfl, rfl, "Unable to obtain size of file \"", "\": " ++ e ++ ".",
        by simp [String.append_assoc], Or.inr (Or.inr (Or.inl rfl))⟩
    · rename_i e heq
      intro m hm
      injection hm with h
      subst h
      exact ⟨rfl, rfl, "Unable to seek back to start of file \"", "\": " ++ e ++ ".",
        by simp [String.append_assoc], Or.inr (Or.inr (Or.inr (Or.inl rfl)))⟩
    · rename_i e heq
      intro m hm
      injection hm with h
      subst h
      exact ⟨rfl, rfl, "Unable to allocate buffer for reading file \"", "\": " ++ e ++ ".",
        by simp [String.append_assoc], Or.inr (Or.inr (Or.inr (Or.inr (Or.inl rfl))))⟩
    · rename_i e heq
      intro m hm
      injection hm with h
      subst h
      refine ⟨rfl, rfl, "Unable to read " ++ toString env.tellSize ++ " bytes from file \"",
        "\": " ++ e ++ ".", by simp [String.append_assoc], ?_⟩
      exact Or.inr (Or.inr (Or.inr (Or.inr (Or.inr (Or.inl ⟨env.tellSize, rfl⟩)))))
    · intro m hm
      injection hm with h
      subst h
      refine ⟨rfl, rfl, "Unable to read " ++ toString env.tellSize ++ " bytes from file \"",
        "\": Got only " ++ toString env.delivered.length ++ " bytes.",
        by simp [String.append_assoc], ?_⟩
      exact Or.inr (Or.inr (Or.inr (Or.inr (Or.inr (Or.inl ⟨env.tellSize, rfl⟩)))))
    · rename_i e heq
      intro m hm
      injection hm with h
      subst h
      exact ⟨rfl, rfl, "Unable to close file \"", "\" after reading: " ++ e ++ ".",
        by simp [String.append_assoc], Or.inr (Or.inr (Or.inr (Or.inr (Or.inr (Or.inr rfl)))))⟩
    · intro m hm
      cases hm
  · intro h
    rcases read_file_shape env path with ⟨_, _, h3⟩ | ⟨he, hlen⟩
    · rw [h] at h3
      cases h3
    · exact ⟨he, hlen⟩

/-- Witness for C7 at a concrete failing read: no data and zero size. -/
theorem read_file_failure_contract_witness :
    (read_file rfFailW "/w/texput.pdf").1 = none
    ∧ (read_file rfFailW "/w/texput.pdf").2.1 = 0 := by
  have h := (read_file_failure_contract rfFailW "/w/texput.pdf").1
    "Unable to open file \"/w/texput.pdf\" for reading: No such file or directory." rfl
  exact ⟨h.1, h.2.1⟩

/-- C4: any format pair outside the four supported ones makes
`texcaller_convert` fail at once, with no destination bytes, a
diagnostic naming both formats, and no workspace activity; the four
supported pairs select `tex`, `pdftex`, `latex`, `pdflatex`. -/
theorem convert_unsupported_pair (env : ConvEnv) (src sf df : String) (mr : Int)
    (h : ¬ ((sf = "TeX" ∧ df = "DVI") ∨ (sf = "TeX" ∧ df = "PDF")
            ∨ (sf = "LaTeX" ∧ df = "DVI") ∨ (sf = "LaTeX" ∧ df = "PDF"))) :
    texcaller_convert env src sf df mr =
      { dest := none, dest_size := 0,
        info := some ("Unable to convert from \"" ++ sf ++ "\" to \"" ++ df ++ "\".")
        workspaceCreated := false, triedMkdtemp := false }
    ∧ engineCmd "TeX" "DVI" = some "tex" ∧ engineCmd "TeX" "PDF" = some "pdftex"
    ∧ engineCmd "LaTeX" "DVI" = some "latex" ∧ engineCmd "LaTeX" "PDF" = some "pdflatex" := by
  have n1 : ¬(sf = "TeX" ∧ df = "DVI") := by tauto
  have n2 : ¬(sf = "TeX" ∧ df = "PDF") := by tauto
  have n3 : ¬(sf = "LaTeX" ∧ df = "DVI") := by tauto
  have n4 : ¬(sf = "LaTeX" ∧ df = "PDF") := by tauto
  have hcmd : engineCmd sf df = none := by
    unfold engineCmd
    rw [if_neg n1, if_neg n2, if_neg n3, if_neg n4]
  refine ⟨?_, by decide, by decide, by decide, by decide⟩
  simp only [texcaller_convert, texcaller_preconvert, hcmd]
  rfl

/-- Witness for C4 at the unsupported pair TeX to PostScript. -/
theorem convert_unsupported_pair_witness :
    texcaller_convert envW "hello" "TeX" "PostScript" 2 =
      { dest := none, dest_size := 0,
        info := some "Unable to convert from \"TeX\" to \"PostScript\"."
        workspaceCreated := false, triedMkdtemp := false } := by
  have h := (convert_unsupported_pair envW "hello" "TeX" "PostScript" 2 (by decide)).1
  exact h.trans (by decide)

/-- C5: with a supported format pair but `max_runs` below 2,
`texcaller_convert` fails at once, with no destination bytes, a
diagnostic citing the run-count value, and no workspace activity. -/
theorem convert_max_runs_below_two (env : ConvEnv) (src sf df : String) (mr : Int)
    (hp : (sf = "TeX" ∧ df = "DVI") ∨ (sf = "TeX" ∧ df = "PDF")
          ∨ (sf = "LaTeX" ∧ df = "DVI") ∨ (sf = "LaTeX" ∧ df = "PDF"))
    (h2 : mr < 2) :
    texcaller_convert env src sf df mr =
      { dest := none, dest_size := 0,
        info := some ("Argument max_runs is " ++ toString mr ++ ", but must be >= 2.")
        workspaceCreated := false, triedMkdtemp := false } := by
  obtain ⟨cmd, hcmd⟩ : ∃ cmd, engineCmd sf df = some cmd := by
    rcases hp with ⟨h, h'⟩ | ⟨h, h'⟩ | ⟨h, h'⟩ | ⟨h, h'⟩ <;> subst h <;> subst h' <;>
      exact ⟨_, rfl⟩
  simp only [texcaller_convert, texcaller_preconvert, hcmd]
  rw [if_pos h2]
  rfl

/-- Witness for C5 at max_runs = 1 with the TeX to DVI pair. -/
theorem convert_max_runs_below_two_witness :
    texcaller_convert envW "hello" "TeX" "DVI" 1 =
      { dest := none, dest_size := 0,
        info := some "Argument max_runs is 1, but must be >= 2."
        workspaceCreated := false, triedMkdtemp := false } := by
  have h := convert_max_runs_below_two envW "hello" "TeX" "DVI" 1 (by decide) (by decide)
  exact h.trans (by decide)

/-- C1: whenever a workspace directory was created and its final
recursive removal fails, the prior outcome is overridden: destination
bytes discarded, size zeroed, and the diagnostic replaced by the removal
error. -/
theorem convert_cleanup_override (env : ConvEnv) (src sf df : String) (mr : Int) (d : String)
    (hd : (texcaller_preconvert env src sf df mr).2.1 = some d)
    (hrm : (remove_directory_recursively d env.cleanup).1 ≠ 0) :
    (texcaller_convert env src sf df mr).dest = none
    ∧ (texcaller_convert env src sf df mr).dest_size = 0
    ∧ (texcaller_convert env src sf df mr).info = (remove_directory_recursively d env.cleanup).2
    ∧ ∃ m, (remove_directory_recursively d env.cleanup).2 = some m := by
  have hconv : texcaller_convert env src sf df mr
      = cleanupPhase env (texcaller_preconvert env src sf df mr).1 (some d)
          (texcaller_preconvert env src sf df mr).2.2 := by
    unfold texcaller_convert
    rcases hp : texcaller_preconvert env src sf df mr with ⟨t, dir, pre⟩
    rw [hp] at hd
    have hdir : dir = some d := hd
    subst hdir
    rfl
  refine ⟨?_, ?_, ?_, rm_error_isSome d env.cleanup hrm⟩ <;>
    (rw [hconv]; simp only [cleanupPhase]; rw [if_pos hrm])

/-- Witness for C1: a conversion that succeeded (destination bytes were
produced before cleanup) still comes back empty, with the removal error
as its diagnostic, when workspace removal fails. -/
theorem convert_cleanup_override_witness :
    (texcaller_preconvert envRmFail "hello" "TeX" "PDF" 3).2.2.1 = some "PDFBYTES"
    ∧ (texcaller_convert envRmFail "hello" "TeX" "PDF" 3).dest = none
    ∧ (texcaller_convert envRmFail "hello" "TeX" "PDF" 3).dest_size = 0
    ∧ (texcaller_convert envRmFail "hello" "TeX" "PDF" 3).info =
        some "Unable to remove directory \"/tmp/texcaller-temp-Ab12Cd\": EACCES." := by
  have h := convert_cleanup_override envRmFail "hello" "TeX" "PDF" 3
    "/tmp/texcaller-temp-Ab12Cd" (by decide) (by decide)
  exact ⟨by decide, h.1, h.2.1, h.2.2.1.trans (by decide)⟩

/-- C3: in every iteration of the run loop whose engine run exits zero,
convergence is declared exactly when the aux bytes equal the previous
round snapshot byte-for-byte (an absent aux file counting as empty, so
absence on both sides is stable); on convergence the destination file is
read, its absence being fatal and its presence yielding the diagnostic
with destination format, destination byte count, source format, source
byte count and the stabilizing run number (`convergedResult`); otherwise
the loop continues with this round as the new baseline. -/
theorem loop_convergence_criterion (env : ConvEnv) (cmd dir sf df : String) (ssz : Nat)
    (mr : Int) (fuel : Nat) (aux_old : Option String) (asz run : Nat)
    (hsz : asz = (aux_old.getD "").length)
    (hout : env.runOut run = RunOutcome.exited 0) :
    ((read_file (env.auxEnv run) (dir ++ "/texput.aux")).1.getD "" = aux_old.getD "" →
       runLoop env cmd dir sf df ssz mr (fuel + 1) aux_old asz run
         = convergedResult env dir sf df ssz run)
    ∧ ((read_file (env.auxEnv run) (dir ++ "/texput.aux")).1.getD "" ≠ aux_old.getD "" →
       runLoop env cmd dir sf df ssz mr (fuel + 1) aux_old asz run
         = runLoop env cmd dir sf df ssz mr fuel
             (read_file (env.auxEnv run) (dir ++ "/texput.aux")).1
             (read_file (env.auxEnv run) (dir ++ "/texput.aux")).2.1 (run + 1)) :=
  ⟨runLoop_step_conv env cmd dir sf df ssz mr fuel aux_old asz run hsz hout,
   runLoop_step_next env cmd dir sf df ssz mr fuel aux_old asz run hsz hout⟩

/-- Witness for C3: with no aux file on either side, the first iteration
converges and hands back the destination bytes with the run-1
diagnostic. -/
theorem loop_convergence_criterion_witness :
    runLoop envW "pdftex" "/w" "TeX" "PDF" 5 3 1 none 0 1
      = (some "PDFBYTES", 8, some "Generated PDF (8 bytes) from TeX (5 bytes) after 1 runs.") := by
  have h := (loop_convergence_criterion envW "pdftex" "/w" "TeX" "PDF" 5 3 0 none 0 1
    rfl rfl).1 (by decide)
  exact h.trans (by decide)

/-- C10: the initial previous-round aux snapshot is the absent state, so
when the first run exits zero and leaves no aux bytes (absent or empty
file), the loop converges at run 1 and the conversion proceeds to read
the destination file and clean up. -/
theorem convert_first_run_convergence (env : ConvEnv) (src sf df : String) (mr : Int)
    (cmd : String)
    (hcmd : engineCmd sf df = some cmd) (hmr : ¬ mr < 2)
    (hmk : env.mkdtempFail = none)
    (hw : ¬ (write_file env.writeEnv (convDirName env ++ "/texput.tex") src).1 ≠ 0)
    (hout : env.runOut 1 = RunOutcome.exited 0)
    (haux : (read_file (env.auxEnv 1) (convDirName env ++ "/texput.aux")).1.getD "" = "") :
    texcaller_convert env src sf df mr =
      cleanupPhase env true (some (convDirName env))
        (convergedResult env (convDirName env) sf df src.length 1) := by
  obtain ⟨k, hk⟩ : ∃ k, mr.toNat = k + 1 := ⟨mr.toNat - 1, by omega⟩
  have hstep := runLoop_step_conv env cmd (convDirName env) sf df src.length mr k
    none 0 1 rfl hout (by simpa using haux)
  simp only [texcaller_convert, texcaller_preconvert, hcmd, if_neg hmr, hmk, if_neg hw]
  rw [hk, hstep]

/-- Witness for C10: a concrete conversion whose first run produces no
aux file converges after a single run. -/
theorem convert_first_run_convergence_witness :
    texcaller_convert envW "hello" "TeX" "PDF" 3 =
      { dest := some "PDFBYTES", dest_size := 8,
        info := some "Generated PDF (8 bytes) from TeX (5 bytes) after 1 runs."
        workspaceCreated := true, triedMkdtemp := true } := by
  have h := convert_first_run_convergence envW "hello" "TeX" "PDF" 3 "pdftex"
    rfl (by decide) rfl (by decide) rfl (by decide)
  exact h.trans (by decide)


/-- A failing `write_file` always hands back an error message. -/
theorem write_file_fail_isSome (env : WriteFileEnv) (path src : String) :
    (write_file env path src).1 ≠ 0 → ∃ m, (write_file env path src).2 = some m := by
  unfold write_file
  repeat' split
  all_goals intro h
  all_goals first
    | exact ⟨_, rfl⟩
    | exact absurd rfl h

/-- Appending a log to a present diagnostic keeps it present. -/
theorem appendLog_isSome (lg info : Option String) (h : info.isSome = true) :
    (appendLog lg info).isSome = true := by
  cases lg <;> cases info <;> simp [appendLog] at h ⊢

/-- Appending a log to a present diagnostic extends it by either nothing
or a blank line plus the log text. -/
theorem appendLog_ext (lg : Option String) (i : String) :
    ∃ ext, appendLog lg (some i) = some (i ++ ext) ∧ (ext = "" ∨ ∃ l, ext = "\n\n" ++ l) := by
  cases lg with
  | none => exact ⟨"", by simp [appendLog], Or.inl rfl⟩
  | some l => exact ⟨"\n\n" ++ l, by simp [appendLog, String.append_assoc], Or.inr ⟨l, rfl⟩⟩

/-- The run loop always produces a diagnostic. -/
theorem runLoop_info_isSome (env : ConvEnv) (cmd dir sf df : String) (ssz : Nat) (mr : Int) :
    ∀ (fuel : Nat) (aux_old : Option String) (asz run : Nat),
      ((runLoop env cmd dir sf df ssz mr fuel aux_old asz run).2.2).isSome = true := by
  intro fuel
  induction fuel with
  | zero => intro aux_old asz run; rfl
  | succ f ih =>
    intro aux_old asz run
    cases hout : env.runOut run with
    | forkFail e => simp [runLoop, hout]
    | waitFail e => simp [runLoop, hout]
    | signaled s => simp [runLoop, hout]
    | exited st =>
      by_cases hst : st ≠ 0
      · simp [runLoop, hout, hst]
      · simp only [runLoop, hout]
        rw [if_neg hst]
        split
        · split
          · exact read_file_none_isSome _ _ (by assumption)
          · rfl
        · exact ih _ _ _

/-- When the run loop hands back destination bytes, its diagnostic is
the success message for the delivered size and some run number. -/
theorem runLoop_dest_some (env : ConvEnv) (cmd dir sf df : String) (ssz : Nat) (mr : Int) :
    ∀ (fuel : Nat) (aux_old : Option String) (asz run : Nat) (b : String),
      (runLoop env cmd dir sf df ssz mr fuel aux_old asz run).1 = some b →
      ∃ sz n, runLoop env cmd dir sf df ssz mr fuel aux_old asz run
        = (some b, sz, some (genMsg df sz sf ssz n)) := by
  intro fuel
  induction fuel with
  | zero => intro aux_old asz run b h; simp [runLoop] at h
  | succ f ih =>
    intro aux_old asz run b h
    cases hout : env.runOut run with
    | forkFail e => simp [runLoop, hout] at h
    | waitFail e => simp [runLoop, hout] at h
    | signaled s => simp [runLoop, hout] at h
    | exited st =>
      by_cases hst : st ≠ 0
      · simp only [runLoop, hout] at h
        rw [if_pos hst] at h
        simp at h
      · simp only [runLoop, hout] at h ⊢
        rw [if_neg hst] at h ⊢
        split at h
        · rename_i hcond
          rw [if_pos hcond]
          rcases hrd : (read_file env.destEnv (destFilename dir df)).1 with _ | b2
          · simp only [hrd] at h
            simp at h
          · simp only [hrd] at h ⊢
            simp at h
            subst h
            exact ⟨(read_file env.destEnv (destFilename dir df)).2.1, run, rfl⟩
        · rename_i hcond
          rw [if_neg hcond]
          exact ih _ _ _ _ h

/-- When every remaining run exits zero and every round differs from its
predecessor, the loop burns all its fuel and reports non-stabilization
at the configured run limit. -/
theorem runLoop_exhaust (env : ConvEnv) (cmd dir sf df : String) (ssz : Nat) (mr : Int) :
    ∀ (fuel run : Nat), 1 ≤ run →
      (∀ i, run ≤ i → i < run + fuel → env.runOut i = RunOutcome.exited 0) →
      (∀ i, run ≤ i → i < run + fuel →
        (auxChain env dir i).getD "" ≠ (auxChain env dir (i - 1)).getD "") →
      runLoop env cmd dir sf df ssz mr fuel (auxChain env dir (run - 1))
          ((auxChain env dir (run - 1)).getD "").length run
        = (none, 0, some ("Output didn\x27t stabilize after " ++ toString mr ++ " runs.")) := by
  intro fuel
  induction fuel with
  | zero => intro run h1 _ _; rfl
  | succ f ih =>
    intro run h1 hout hstab
    have hout1 : env.runOut run = RunOutcome.exited 0 := hout run le_rfl (by omega)
    have hne : (auxChain env dir run).getD "" ≠ (auxChain env dir (run - 1)).getD "" :=
      hstab run le_rfl (by omega)
    have hchain : auxChain env dir run = (read_file (env.auxEnv run) (dir ++ "/texput.aux")).1 := by
      obtain ⟨k, rfl⟩ : ∃ k, run = k + 1 := ⟨run - 1, by omega⟩
      rfl
    rw [runLoop_step_next env cmd dir sf df ssz mr f _ _ run rfl hout1
      (by rw [← hchain]; exact hne)]
    have hsz2 : (read_file (env.auxEnv run) (dir ++ "/texput.aux")).2.1
        = ((auxChain env dir run).getD "").length := by
      rw [read_file_size, hchain]
    rw [← hchain, hsz2]
    exact ih (run + 1) (by omega) (fun i hi1 hi2 => hout i (by omega) (by omega))
      (fun i hi1 hi2 => hstab i (by omega) (by omega))

/-- C8: when every one of the `max_runs` engine runs exits zero yet the
aux file never repeats its previous round, the conversion fails with no
destination bytes and a diagnostic naming the configured run limit
(stated for calls whose workspace removal succeeds, since a removal
failure would override the diagnostic as per the cleanup policy). -/
theorem convert_run_budget_exhausted (env : ConvEnv) (src sf df : String) (mr : Int)
    (cmd : String)
    (hcmd : engineCmd sf df = some cmd) (hmr : ¬ mr < 2)
    (hmk : env.mkdtempFail = none)
    (hw : ¬ (write_file env.writeEnv (convDirName env ++ "/texput.tex") src).1 ≠ 0)
    (hout : ∀ i, 1 ≤ i → i ≤ mr.toNat → env.runOut i = RunOutcome.exited 0)
    (hstab : ∀ i, 1 ≤ i → i ≤ mr.toNat →
      (auxChain env (convDirName env) i).getD "" ≠ (auxChain env (convDirName env) (i - 1)).getD "")
    (hrm : (remove_directory_recursively (convDirName env) env.cleanup).1 = 0) :
    (texcaller_convert env src sf df mr).dest = none
    ∧ (texcaller_convert env src sf df mr).dest_size = 0
    ∧ ∃ ext, (texcaller_convert env src sf df mr).info
        = some ("Output didn\x27t stabilize after " ++ toString mr ++ " runs." ++ ext)
        ∧ (ext = "" ∨ ∃ lg, ext = "\n\n" ++ lg) := by
  have hex2 : runLoop env cmd (convDirName env) sf df src.length mr mr.toNat none 0 1
      = (none, 0, some ("Output didn\x27t stabilize after " ++ toString mr ++ " runs.")) :=
    runLoop_exhaust env cmd (convDirName env) sf df src.length mr mr.toNat 1 le_rfl
      (fun i hi1 hi2 => hout i hi1 (by omega)) (fun i hi1 hi2 => hstab i hi1 (by omega))
  have hconv : texcaller_convert env src sf df mr
      = cleanupPhase env true (some (convDirName env))
          (none, 0, some ("Output didn\x27t stabilize after " ++ toString mr ++ " runs.")) := by
    simp only [texcaller_convert, texcaller_preconvert, hcmd, hmk]
    rw [if_neg hmr, if_neg hw, hex2]
  have hnot : ¬ ((remove_directory_recursively (convDirName env) env.cleanup).1 ≠ 0) :=
    fun hn => hn hrm
  refine ⟨?_, ?_, ?_⟩ <;> (rw [hconv]; simp only [cleanupPhase]; rw [if_neg hnot])
  exact appendLog_ext (read_file env.logEnv (convDirName env ++ "/texput.log")).1
    ("Output didn\x27t stabilize after " ++ toString mr ++ " runs.")

/-- Witness for C8 at max_runs = 2 with an aux file that changes on
every run. -/
theorem convert_run_budget_exhausted_witness :
    (texcaller_convert envExh "hello" "TeX" "PDF" 2).dest = none
    ∧ (texcaller_convert envExh "hello" "TeX" "PDF" 2).dest_size = 0
    ∧ (texcaller_convert envExh "hello" "TeX" "PDF" 2).info
        = some "Output didn\x27t stabilize after 2 runs." := by
  have h := convert_run_budget_exhausted envExh "hello" "TeX" "PDF" 2 "pdftex"
    rfl (by decide) rfl (by decide)
    (fun i h1 h2 => rfl)
    (by
      intro i h1 h2
      have h2x : i ≤ 2 := h2
      interval_cases i <;> decide)
    (by decide)
  exact ⟨h.1, h.2.1, by decide⟩

/-- The cleanup phase preserves the result invariant: the diagnostic
stays present, and destination bytes survive only together with the
success diagnostic (possibly extended by the appended log). -/
theorem cleanupPhase_invariant (env : ConvEnv) (tried : Bool) (dirOpt : Option String)
    (df sf : String) (ssz : Nat) (pre : Option String × Nat × Option String)
    (hinfo : (pre.2.2).isSome = true)
    (hgen : ∀ b, pre.1 = some b → ∃ sz n, pre = (some b, sz, some (genMsg df sz sf ssz n))) :
    ((cleanupPhase env tried dirOpt pre).info).isSome = true
    ∧ (∀ b, (cleanupPhase env tried dirOpt pre).dest = some b →
        ∃ sz n ext, (cleanupPhase env tried dirOpt pre).info = some (genMsg df sz sf ssz n ++ ext)
          ∧ (cleanupPhase env tried dirOpt pre).dest_size = sz
          ∧ (ext = "" ∨ ∃ lg, ext = "\n\n" ++ lg)) := by
  cases dirOpt with
  | none =>
    constructor
    · exact hinfo
    · intro b hb
      obtain ⟨sz, n, hpre⟩ := hgen b hb
      refine ⟨sz, n, "", ?_, ?_, Or.inl rfl⟩
      · show pre.2.2 = some (genMsg df sz sf ssz n ++ "")
        rw [hpre]
        simp
      · show pre.2.1 = sz
        rw [hpre]
  | some d =>
    by_cases hrm : (remove_directory_recursively d env.cleanup).1 ≠ 0
    · constructor
      · obtain ⟨m, hm⟩ := rm_error_isSome d env.cleanup hrm
        simp only [cleanupPhase]
        rw [if_pos hrm]
        simp [hm]
      · intro b hb
        simp only [cleanupPhase] at hb
        rw [if_pos hrm] at hb
        simp at hb
    · constructor
      · simp only [cleanupPhase]
        rw [if_neg hrm]
        exact appendLog_isSome _ _ hinfo
      · intro b hb
        simp only [cleanupPhase] at hb
        rw [if_neg hrm] at hb
        have hb2 : pre.1 = some b := hb
        obtain ⟨sz, n, hpre⟩ := hgen b hb2
        obtain ⟨ext, heq, hor⟩ := appendLog_ext (read_file env.logEnv (d ++ "/texput.log")).1
          (genMsg df sz sf ssz n)
        refine ⟨sz, n, ext, ?_, ?_, hor⟩
        · simp only [cleanupPhase]
          rw [if_neg hrm]
          show appendLog (read_file env.logEnv (d ++ "/texput.log")).1 pre.2.2
              = some (genMsg df sz sf ssz n ++ ext)
          rw [hpre]
          exact heq
        · simp only [cleanupPhase]
          rw [if_neg hrm]
          show pre.2.1 = sz
          rw [hpre]

/-- C9: after every call to `texcaller_convert` a diagnostic is present,
and destination bytes are present only together with the success
diagnostic (its byte counts and run number, possibly followed by the
appended log); failure paths always leave the bytes unset with the cause
as diagnostic. -/
theorem convert_result_invariant (env : ConvEnv) (src sf df : String) (mr : Int) :
    ((texcaller_convert env src sf df mr).info).isSome = true
    ∧ (∀ b, (texcaller_convert env src sf df mr).dest = some b →
        ∃ sz n ext, (texcaller_convert env src sf df mr).info
            = some (genMsg df sz sf src.length n ++ ext)
          ∧ (texcaller_convert env src sf df mr).dest_size = sz
          ∧ (ext = "" ∨ ∃ lg, ext = "\n\n" ++ lg)) := by
  cases hcmd : engineCmd sf df with
  | none =>
    have heq : texcaller_convert env src sf df mr = cleanupPhase env false none
        (none, 0, some ("Unable to convert from \"" ++ sf ++ "\" to \"" ++ df ++ "\".")) := by
      simp only [texcaller_convert, texcaller_preconvert, hcmd]
    rw [heq]
    exact cleanupPhase_invariant env false none df sf src.length _ rfl
      (fun b hb => by simp at hb)
  | some cmd =>
    by_cases hmr : mr < 2
    · have heq : texcaller_convert env src sf df mr = cleanupPhase env false none
          (none, 0, some ("Argument max_runs is " ++ toString mr ++ ", but must be >= 2.")) := by
        simp only [texcaller_convert, texcaller_preconvert, hcmd]
        rw [if_pos hmr]
      rw [heq]
      exact cleanupPhase_invariant env false none df sf src.length _ rfl
        (fun b hb => by simp at hb)
    · cases hmk : env.mkdtempFail with
      | some e =>
        have heq : texcaller_convert env src sf df mr = cleanupPhase env true none
            (none, 0, some ("Unable to create temporary directory from template \""
                            ++ (tmpdirResolve env.tmpdir ++ "/texcaller-temp-XXXXXX")
                            ++ "\": " ++ e ++ ".")) := by
          simp only [texcaller_convert, texcaller_preconvert, hcmd, hmk]
          rw [if_neg hmr]
        rw [heq]
        exact cleanupPhase_invariant env true none df sf src.length _ rfl
          (fun b hb => by simp at hb)
      | none =>
        by_cases hw : (write_file env.writeEnv (convDirName env ++ "/texput.tex") src).1 ≠ 0
        · obtain ⟨m, hm⟩ := write_file_fail_isSome env.writeEnv
            (convDirName env ++ "/texput.tex") src hw
          have heq : texcaller_convert env src sf df mr = cleanupPhase env true
              (some (convDirName env))
              (none, 0, (write_file env.writeEnv (convDirName env ++ "/texput.tex") src).2) := by
            simp only [texcaller_convert, texcaller_preconvert, hcmd, hmk]
            rw [if_neg hmr, if_pos hw]
          rw [heq]
          apply cleanupPhase_invariant env true (some (convDirName env)) df sf src.length
          · show ((write_file env.writeEnv (convDirName env ++ "/texput.tex") src).2).isSome = true
            rw [hm]
            rfl
          · intro b hb
            simp at hb
        · have heq : texcaller_convert env src sf df mr = cleanupPhase env true
              (some (convDirName env))
              (runLoop env cmd (convDirName env) sf df src.length mr mr.toNat none 0 1) := by
            simp only [texcaller_convert, texcaller_preconvert, hcmd, hmk]
            rw [if_neg hmr, if_neg hw]
          rw [heq]
          apply cleanupPhase_invariant env true (some (convDirName env)) df sf src.length
          · exact runLoop_info_isSome env cmd (convDirName env) sf df src.length mr
              mr.toNat none 0 1
          · exact runLoop_dest_some env cmd (convDirName env) sf df src.length mr
              mr.toNat none 0 1

/-- Witness for C9 at a successful concrete conversion: the diagnostic
is present, and the success branch of the invariant is exercised. -/
theorem convert_result_invariant_witness :
    ((texcaller_convert envW "hello" "TeX" "PDF" 3).info).isSome = true
    ∧ (texcaller_convert envW "hello" "TeX" "PDF" 3).dest_size = 8 := by
  have h := convert_result_invariant envW "hello" "TeX" "PDF" 3
  obtain ⟨sz, n, ext, hinfo, hsz, hor⟩ := h.2 "PDFBYTES" (by decide)
  exact ⟨h.1, by decide⟩

end Texcaller
